import Mathlib

/-!
# Verification of the DR agent research pipeline

Shallow embedding of the core of the repository (the client orchestration in
`src/app/layout.tsx` together with `CONFIG` from `src/lib/config.ts`):
the backoff executor `retryWithBackoff`, the diversity selector, the content
resolver with its fetch tracker, the selection toggle `handleResultSelect`,
the manual-search merge, and the agent pipeline `handleAgentSearch`.

JavaScript conventions used throughout the embedding:
* a thrown value is modelled by `Thrown`, whose constructors mirror the cases
  distinguished by `handleError` (an `Error` object carrying a message, a
  `Response` object carrying a status, an object with an `error` field, a
  string, and any other value — `undefined` included);
* optional string fields (`content`, `id`, ...) are modelled as `String` with
  `""` playing the role of `undefined`: both are falsy in JS, and the source
  only ever tests them for truthiness;
* scores are modelled as `ℚ` (the concrete scores in play are exact decimal
  literals, and only order comparisons with `0.5` and `0` occur).
-/

deriving instance DecidableEq for Except

namespace DR

/-- A value thrown by JS code, as discriminated by `handleError` and the
`instanceof Error` tests in `layout.tsx`. -/
inductive Thrown where
  | errObj (msg : String)      -- an `Error` instance with its `.message`
  | respObj (status : Nat)     -- a `Response` object
  | objWithError (e : String)  -- a plain object with an `error` field
  | strVal (s : String)        -- a thrown string
  | otherVal                   -- anything else, `undefined` included
deriving DecidableEq, Repr

/-- `matchesHere pat text`: does `pat` occur at the head of `text`? -/
def matchesHere : List Char → List Char → Bool
  | [], _ => true
  | _ :: _, [] => false
  | p :: ps, c :: cs => p = c && matchesHere ps cs

/-- `containsChars pat text`: does `pat` occur anywhere inside `text`? -/
def containsChars (pat : List Char) : List Char → Bool
  | [] => matchesHere pat []
  | c :: cs => matchesHere pat (c :: cs) || containsChars pat cs

/-- Model of `String.prototype.includes`. -/
def strIncludes (s pat : String) : Bool :=
  containsChars pat.toList s.toList

/-- The rate-limit classifier used at every site of `layout.tsx`:
`error instanceof Error && error.message.includes('429')`. -/
def isRateLimit : Thrown → Bool
  | Thrown.errObj msg => strIncludes msg "429"
  | _ => false

/-- The message extraction of `handleError` (`layout.tsx` lines 178-207); the
toast side effect is not modelled. -/
def handleErrorMessage : Thrown → String
  | Thrown.errObj msg => msg
  | Thrown.respObj status => "Server error: " ++ toString status
  | Thrown.objWithError e => e
  | Thrown.strVal s => s
  | Thrown.otherVal => "An unexpected error occurred"

/-- Core loop of `retryWithBackoff` (`layout.tsx` lines 105-126).

The operation is modelled as a function from the invocation index to its
outcome.  The result carries, besides the settled value, the number of times
the operation was invoked and the list of delays slept through (the source
sleeps `baseDelay * 2 ^ i` before every retry, including after the final
rate-limited failure).  `fuel` is the number of loop iterations left and
`last` models the `lastError` variable (initially `undefined`). -/
def retryAux {α : Type} (op : Nat → Except Thrown α) (baseDelay : Nat) :
    Nat → Nat → Thrown → Except Thrown α × Nat × List Nat
  | 0, i, last => (Except.error last, i, [])
  | fuel + 1, i, _last =>
    match op i with
    | Except.ok v => (Except.ok v, i + 1, [])
    | Except.error e =>
      if isRateLimit e then
        let rest := retryAux op baseDelay fuel (i + 1) e
        (rest.1, rest.2.1, baseDelay * 2 ^ i :: rest.2.2)
      else (Except.error e, i + 1, [])

/-- `retryWithBackoff(operation, maxRetries = 3, baseDelay = 1000)`. -/
def retryWithBackoff {α : Type} (op : Nat → Except Thrown α)
    (maxRetries : Nat) (baseDelay : Nat) : Except Thrown α × Nat × List Nat :=
  retryAux op baseDelay maxRetries 0 Thrown.otherVal

/-- `CONFIG.search.maxSelectableResults` from `src/lib/config.ts`. -/
def maxSelectableResults : Nat := 3

/-- `MAX_SELECTIONS = CONFIG.search.maxSelectableResults` (`layout.tsx` line 101). -/
def MAX_SELECTIONS : Nat := maxSelectableResults

/-- The `SearchResult` record of `@/types` as used by `layout.tsx`: absent
optional string fields are `""`, an absent score is `0` (the source reads the
score only through `r.score || 0` and minting sites initialise it to `0`). -/
structure SearchResult where
  id : String
  url : String
  name : String
  snippet : String
  content : String
  score : ℚ
  isCustomUrl : Bool
deriving DecidableEq, Repr

/-- The characters following the first occurrence of `"://"`, if any. -/
def afterScheme : List Char → Option (List Char)
  | [] => none
  | c :: cs =>
    if matchesHere "://".toList (c :: cs) then some (cs.drop 2)
    else afterScheme cs

/-- The characters before the first `'/'`. -/
def takeUntilSlash : List Char → List Char
  | [] => []
  | c :: cs => if c = '/' then [] else c :: takeUntilSlash cs

/-- Model of the browser's `new URL(u).hostname` for ordinary
`scheme://host/path` URLs: the text between `"://"` and the next `"/"`
(ports and credentials do not occur in any input considered here; an
URL without a scheme, on which the `URL` constructor would throw, maps
to `""`). -/
def hostname (url : String) : String :=
  match afterScheme url.toList with
  | some rest => ⟨takeUntilSlash rest⟩
  | none => ""

/-- JS whitespace for the purposes of `String.prototype.trim` (the inputs in
play only ever carry these). -/
def isWsChar (c : Char) : Bool :=
  c = ' ' ∨ c = '\t' ∨ c = '\n' ∨ c = '\r'

/-- Drop leading whitespace characters. -/
def dropLeadingWs : List Char → List Char
  | [] => []
  | c :: cs => if isWsChar c then dropLeadingWs cs else c :: cs

/-- Model of `String.prototype.trim`. -/
def jsTrim (s : String) : String :=
  ⟨(dropLeadingWs (dropLeadingWs s.toList).reverse).reverse⟩

/-- `Set.prototype.add` on a JS `Set` represented as its insertion-ordered
list of distinct elements. -/
def jsSetAdd (s : List String) (x : String) : List String :=
  if x ∈ s then s else s ++ [x]

/-- `new Set(l).size`. -/
def jsSetSize (l : List String) : Nat :=
  (l.foldl jsSetAdd []).length

/-- Stable insertion of one element into a score-descending list: the element
goes before the first entry whose score is `≤` its own, so an
original-earlier element stays before original-later elements of equal
score. -/
def insertByScore (x : SearchResult) : List SearchResult → List SearchResult
  | [] => [x]
  | y :: ys => if y.score ≤ x.score then x :: y :: ys else y :: insertByScore x ys

/-- Model of `.sort((a, b) => (b.score || 0) - (a.score || 0))`: a stable sort
descending by score (ECMAScript `Array.prototype.sort` is stable). -/
def sortByScoreDesc : List SearchResult → List SearchResult
  | [] => []
  | x :: xs => insertByScore x (sortByScoreDesc xs)

/-- The diversity selector of `handleAgentSearch` (`layout.tsx` lines
650-663): a single pass over the ranked results, carrying the mutable
`selectedUrls` set.  A result is skipped once the set has reached the cap,
or when its URL's hostname matches that of an already selected URL, or when
its score is falsy or `≤ 0.5`.  `new URL(_).hostname` is abstracted as the
`host` argument (the pipeline instantiates it with `hostname`).  The quality
floor `0.5` is spelled `mkRat 1 2` because the decimal literal elaborates
through the irreducible `Rat.ofScientific` and would block kernel
evaluation; `ratHalf_eq` below identifies the two spellings. -/
def selectDiverse (host : String → String) (cap : Nat) :
    List SearchResult → List String → List SearchResult
  | [], _ => []
  | r :: rest, selectedUrls =>
    if cap ≤ selectedUrls.length then
      selectDiverse host cap rest selectedUrls
    else if (selectedUrls.any fun u => host u == host r.url) = false
        ∧ r.score ≠ 0 ∧ mkRat 1 2 < r.score then
      r :: selectDiverse host cap rest (jsSetAdd selectedUrls r.url)
    else
      selectDiverse host cap rest selectedUrls

/-- The two spellings of the quality floor agree. -/
theorem ratHalf_eq : mkRat 1 2 = (0.5 : ℚ) := by
  rw [Rat.mkRat_eq_div]
  norm_num

/-- Per-source resolution status: `'fetched'` or `'preview'`. -/
inductive SourceStatus where
  | fetched
  | preview
deriving DecidableEq, Repr

/-- The `fetchStatus` record of `Status`. -/
structure FetchStatus where
  total : Nat
  successful : Nat
  fallback : Nat
  sourceStatuses : List (String × SourceStatus)
deriving DecidableEq, Repr

/-- `{ ...prev.sourceStatuses, [url]: st }`: override the binding for `url`,
keeping keys unique. -/
def setSourceStatus (m : List (String × SourceStatus)) (url : String)
    (st : SourceStatus) : List (String × SourceStatus) :=
  (url, st) :: m.filter fun p => p.1 ≠ url

/-- The `successful + 1` / `'fetched'` status update of the resolver. -/
def recordFetched (fs : FetchStatus) (url : String) : FetchStatus :=
  { fs with successful := fs.successful + 1,
            sourceStatuses := setSourceStatus fs.sourceStatuses url SourceStatus.fetched }

/-- The `fallback + 1` / `'preview'` status update of the resolver. -/
def recordFallback (fs : FetchStatus) (url : String) : FetchStatus :=
  { fs with fallback := fs.fallback + 1,
            sourceStatuses := setSourceStatus fs.sourceStatuses url SourceStatus.preview }

/-- One entry of `contentResults`: `{ url, title, content }`. -/
structure ContentResult where
  url : String
  title : String
  content : String
deriving DecidableEq, Repr

/-- The per-candidate content resolver (`layout.tsx` lines 699-756; the
manual flow at lines 296-357 has the same structure).  `fetch` is the outcome
of `fetchContent` for a URL (`fetchContent`'s own catch rethrows every error,
so the raw outcome is what the resolver sees).  If the article already has
truthy content it is returned unchanged and recorded as fetched, without
consulting `fetch`.  Otherwise a successful fetch with truthy content is
recorded as fetched; a rate-limit error is rethrown; any other error, or
falsy content, falls back to the snippet and is recorded as `preview`. -/
def resolveOne (fetch : String → Except Thrown String) (fs : FetchStatus)
    (article : SearchResult) : Except Thrown (ContentResult × FetchStatus) :=
  if article.content ≠ "" then
    Except.ok (⟨article.url, article.name, article.content⟩,
      recordFetched fs article.url)
  else
    match fetch article.url with
    | Except.ok content =>
      if content ≠ "" then
        Except.ok (⟨article.url, article.name, content⟩, recordFetched fs article.url)
      else
        Except.ok (⟨article.url, article.name, article.snippet⟩,
          recordFallback fs article.url)
    | Except.error e =>
      if isRateLimit e then Except.error e
      else
        Except.ok (⟨article.url, article.name, article.snippet⟩,
          recordFallback fs article.url)

/-- `Promise.all` over the resolutions.  The fan-out is modelled
sequentially: each branch's status update is a commutative functional
increment, so the final counters agree with any interleaving, and the batch
settles to the (first) rate-limit rejection if one occurs. -/
def resolveBatch (fetch : String → Except Thrown String) (fs : FetchStatus) :
    List SearchResult → Except Thrown (List ContentResult × FetchStatus)
  | [] => Except.ok ([], fs)
  | article :: rest =>
    match resolveOne fetch fs article with
    | Except.error e => Except.error e
    | Except.ok (r, fs1) =>
      match resolveBatch fetch fs1 rest with
      | Except.error e => Except.error e
      | Except.ok (rs, fs2) => Except.ok (r :: rs, fs2)

/-- `selectedResults: contentResults.filter((r) => r.content?.trim())` — the
payload handed to the report synthesizer. -/
def reportPayload (contentResults : List ContentResult) : List ContentResult :=
  contentResults.filter fun r => jsTrim r.content ≠ ""

/-- Modelled from the spec: the stage tag of `PipelineStatus`.  The `Status`
type lives in `@/types`, which is not among the source files; the spec's
state machine (§4.5) lists the stages
`idle, processing, searching, analyzing, generating, error`.  The code under
`src/` assigns only the first five. -/
inductive AgentStep where
  | idle
  | processing
  | searching
  | analyzing
  | generating
  | error
deriving DecidableEq, Repr

/-- The `status` sub-record of the page state (`layout.tsx` lines 144-151). -/
structure Status where
  loading : Bool
  generatingReport : Bool
  agentStep : AgentStep
  fetchStatus : FetchStatus
  agentInsights : List String
  searchQueries : List String
deriving DecidableEq, Repr

/-- The page state (`layout.tsx` lines 130-152).  Fields that are purely
presentational (`newUrl`, `isSourcesOpen`, `selectedModel`, `sidebarOpen`,
`activeTab`, `timeFilter`) are omitted; none of the embedded logic reads
them. -/
structure State where
  query : String
  results : List SearchResult
  selectedResults : List String
  reportPrompt : String
  report : Option String
  error : Option String
  isAgentMode : Bool
  status : Status
deriving DecidableEq, Repr

/-- The initial `useState` value (`layout.tsx` lines 130-152). -/
def initialState : State :=
  { query := ""
    results := []
    selectedResults := []
    reportPrompt := ""
    report := none
    error := none
    isAgentMode := false
    status :=
      { loading := false
        generatingReport := false
        agentStep := AgentStep.idle
        fetchStatus := { total := 0, successful := 0, fallback := 0, sourceStatuses := [] }
        agentInsights := []
        searchQueries := [] } }

/-- `handleError` as it acts on the state (`layout.tsx` lines 178-207): set
`error` to the extracted message; the toast is an external effect. -/
def applyHandleError (e : Thrown) (st : State) : State :=
  { st with error := some (handleErrorMessage e) }

/-- The selection toggle `handleResultSelect` (`layout.tsx` lines 237-269).
An already selected id is removed (clearing the report prompt when at most
one selection remains); adding is refused at `MAX_SELECTIONS`; the first
manual selection with an empty prompt auto-populates the default prompt. -/
def handleResultSelect (resultId : String) (prev : State) : State :=
  if resultId ∈ prev.selectedResults then
    { prev with
      selectedResults := prev.selectedResults.filter fun i => i ≠ resultId
      reportPrompt := if prev.selectedResults.length ≤ 1 then "" else prev.reportPrompt }
  else if MAX_SELECTIONS ≤ prev.selectedResults.length then prev
  else
    let newSelectedResults := prev.selectedResults ++ [resultId]
    let newReportPrompt :=
      if prev.isAgentMode = false ∧ newSelectedResults.length = 1
          ∧ prev.reportPrompt = "" then
        match prev.results.find? fun r => r.id = resultId with
        | some r => "Analyze and summarize the key points from " ++ r.name
        | none => prev.reportPrompt
      else prev.reportPrompt
    { prev with selectedResults := newSelectedResults, reportPrompt := newReportPrompt }

/-- The id minting of the manual search (`layout.tsx` lines 424-429):
`search-${Date.now()}-${result.id || result.url}`. -/
def mapNewResults (now : Nat) (resp : List SearchResult) : List SearchResult :=
  resp.map fun r =>
    { r with id := "search-" ++ toString now ++ "-" ++ (if r.id = "" then r.url else r.id) }

/-- The merge of freshly fetched results into the candidate set
(`layout.tsx` lines 431-443): keep the previous results that are custom or
selected, then append those new results whose URL did not occur in the
(unfiltered) previous list. -/
def handleSearchMerge (prev : State) (newResults : List SearchResult) : State :=
  { prev with
    results :=
      (prev.results.filter fun r => r.isCustomUrl || prev.selectedResults.contains r.id)
      ++ newResults.filter fun n => (prev.results.any fun e => e.url == n.url) = false
    error := none }

/-- Response of the query optimizer collaborator. -/
structure OptimizeResp where
  query : String
  optimizedPrompt : String
  explanation : String
  suggestedStructure : Option (List String)
deriving DecidableEq, Repr

/-- One entry of the analyzer's `rankings`. -/
structure Ranking where
  url : String
  score : ℚ
deriving DecidableEq, Repr

/-- Response of the result analyzer collaborator. -/
structure AnalyzeResp where
  rankings : List Ranking
  analysis : String
deriving DecidableEq, Repr

/-- The external collaborators of one agent run, each modelled as the settled
outcome its `fetch` call would produce (after the response-status mapping the
source performs inside the retried operation), plus the `Date.now()`
timestamp used for id minting. -/
structure Oracles where
  optimize : Except Thrown OptimizeResp
  search : Except Thrown (List SearchResult)
  analyze : Except Thrown AnalyzeResp
  fetchC : String → Except Thrown String
  reportGen : List ContentResult → Except Thrown String
  timestamp : Nat

/-- The agent pipeline `handleAgentSearch` (`layout.tsx` lines 485-788),
from the prompt guard through optimize → search → analyze/rank → select →
resolve-content → synthesize, with every stage wrapped in
`retryWithBackoff` and every thrown error routed to `handleError`.  State
updates performed before a throw persist, exactly as the interleaved
`setState` calls do in the source. -/
def handleAgentSearch (o : Oracles) (st0 : State) : State :=
  if jsTrim st0.reportPrompt = "" then st0
  else
    let st1 : State :=
      { st0 with
        error := none, results := [], selectedResults := [], report := none,
        status := { st0.status with
          agentStep := AgentStep.processing, agentInsights := [], searchQueries := [] } }
    match retryWithBackoff (fun _ => o.optimize) 3 1000 with
    | (Except.error e, _, _) => applyHandleError e st1
    | (Except.ok opt, _, _) =>
      let st2 : State := { st1 with query := opt.query }
      let st3 : State :=
        { st2 with status := { st2.status with
            searchQueries := [opt.query],
            agentInsights := st2.status.agentInsights
              ++ ["Research strategy: " ++ opt.explanation]
              ++ (match opt.suggestedStructure with
                  | some struct => ["Suggested structure: " ++ String.intercalate " → " struct]
                  | none => []) } }
      let st4 : State :=
        { st3 with status := { st3.status with agentStep := AgentStep.searching } }
      match retryWithBackoff (fun _ => o.search) 3 1000 with
      | (Except.error e, _, _) => applyHandleError e st4
      | (Except.ok searchResults, _, _) =>
        if searchResults.length = 0 then
          applyHandleError
            (Thrown.errObj "No search results found. Please try a different query.") st4
        else
          let allResults : List SearchResult := searchResults.enum.map fun p =>
            { p.2 with
              id := "search-" ++ toString o.timestamp ++ "-" ++ toString p.1 ++ "-" ++ p.2.url
              score := 0 }
          let st5 : State :=
            { st4 with status := { st4.status with agentStep := AgentStep.analyzing } }
          match retryWithBackoff (fun _ => o.analyze) 3 1000 with
          | (Except.error e, _, _) => applyHandleError e st5
          | (Except.ok ana, _, _) =>
            let rankedResults := sortByScoreDesc (allResults.map fun r =>
              { r with score :=
                  match ana.rankings.find? fun rk => rk.url = r.url with
                  | some rk => rk.score
                  | none => 0 })
            if rankedResults.all fun r => r.score = 0 then
              applyHandleError
                (Thrown.errObj "No relevant results found. Please try a different query.") st5
            else
              let st6 : State :=
                { st5 with status := { st5.status with
                    agentInsights := st5.status.agentInsights
                      ++ ["Analysis: " ++ ana.analysis,
                          "Found " ++ toString rankedResults.length ++ " relevant results"] } }
              let selected := selectDiverse hostname maxSelectableResults rankedResults []
              if selected.length = 0 then
                applyHandleError
                  (Thrown.errObj
                    "Could not find enough diverse, high-quality sources. Please try a different query.")
                  st6
              else
                let st7 : State :=
                  { st6 with
                    results := rankedResults
                    selectedResults := selected.map fun r => r.id }
                let st8 : State :=
                  { st7 with status := { st7.status with
                      agentInsights := st7.status.agentInsights
                        ++ ["Selected " ++ toString selected.length
                            ++ " diverse sources from "
                            ++ toString (jsSetSize (selected.map fun s => hostname s.url))
                            ++ " unique domains"] } }
                let st9 : State :=
                  { st8 with status := { st8.status with
                      agentStep := AgentStep.generating
                      fetchStatus :=
                        { total := selected.length, successful := 0, fallback := 0,
                          sourceStatuses := [] } } }
                match resolveBatch o.fetchC st9.status.fetchStatus selected with
                | Except.error e => applyHandleError e st9
                | Except.ok (contentResults, fs) =>
                  let st10 : State :=
                    { st9 with status := { st9.status with fetchStatus := fs } }
                  match retryWithBackoff
                      (fun _ => o.reportGen (reportPayload contentResults)) 3 1000 with
                  | (Except.error e, _, _) => applyHandleError e st10
                  | (Except.ok rep, _, _) =>
                    let st11 : State := { st10 with report := some rep }
                    { st11 with status := { st11.status with
                        agentInsights := st11.status.agentInsights
                          ++ ["Report generated successfully"]
                        agentStep := AgentStep.idle } }

/-! ## Lemmas about the diversity selector -/

/-- A false `hasSimilar` test means the URL's host is fresh with respect to
every URL in the running set. -/
theorem host_fresh_of_any_false (host : String → String) {acc : List String}
    {u : String} (h : (acc.any fun v => host v == host u) = false) :
    ∀ v ∈ acc, host v ≠ host u := by
  intro v hv
  have h2 := List.any_eq_false.mp h v hv
  simpa using h2

/-- A false `hasSimilar` test in particular means the URL itself is not in
the running set, so `Set.add` appends it. -/
theorem jsSetAdd_of_any_false (host : String → String) {acc : List String}
    {u : String} (h : (acc.any fun v => host v == host u) = false) :
    jsSetAdd acc u = acc ++ [u] := by
  have hnot : u ∉ acc := fun hmem => host_fresh_of_any_false host h u hmem rfl
  rw [jsSetAdd, if_neg hnot]

/-- The acceptance condition of the selector, named for case analysis. -/
def acceptCond (host : String → String) (acc : List String) (r : SearchResult) : Prop :=
  (acc.any fun u => host u == host r.url) = false ∧ r.score ≠ 0 ∧ mkRat 1 2 < r.score

instance (host : String → String) (acc : List String) (r : SearchResult) :
    Decidable (acceptCond host acc r) := by
  unfold acceptCond; infer_instance

/-- The step equation of the selector in terms of `acceptCond`. -/
theorem selectDiverse_cons (host : String → String) (cap : Nat)
    (r : SearchResult) (rest : List SearchResult) (acc : List String) :
    selectDiverse host cap (r :: rest) acc =
      if cap ≤ acc.length then selectDiverse host cap rest acc
      else if acceptCond host acc r then
        r :: selectDiverse host cap rest (jsSetAdd acc r.url)
      else selectDiverse host cap rest acc := by
  simp only [selectDiverse, acceptCond]

/-- The selection never outgrows `cap`, whatever the running set holds. -/
theorem selectDiverse_length_le (host : String → String) (cap : Nat) :
    ∀ (rs : List SearchResult) (acc : List String),
      (selectDiverse host cap rs acc).length ≤ cap - acc.length := by
  intro rs
  induction rs with
  | nil => intro acc; simp [selectDiverse]
  | cons r rest ih =>
    intro acc
    rw [selectDiverse_cons]
    by_cases h1 : cap ≤ acc.length
    · rw [if_pos h1]; exact ih acc
    · rw [if_neg h1]
      by_cases h2 : acceptCond host acc r
      · rw [if_pos h2]
        have hadd := jsSetAdd_of_any_false host h2.1
        have hrec := ih (jsSetAdd acc r.url)
        rw [hadd, List.length_append, List.length_singleton] at hrec
        rw [List.length_cons, hadd]
        omega
      · rw [if_neg h2]; exact ih acc

/-- Every selected result clears the (truthy) quality floor. -/
theorem selectDiverse_score (host : String → String) (cap : Nat) :
    ∀ (rs : List SearchResult) (acc : List String),
      ∀ c ∈ selectDiverse host cap rs acc, c.score ≠ 0 ∧ mkRat 1 2 < c.score := by
  intro rs
  induction rs with
  | nil => intro acc c hc; simp [selectDiverse] at hc
  | cons r rest ih =>
    intro acc c hc
    rw [selectDiverse_cons] at hc
    by_cases h1 : cap ≤ acc.length
    · rw [if_pos h1] at hc; exact ih acc c hc
    · rw [if_neg h1] at hc
      by_cases h2 : acceptCond host acc r
      · rw [if_pos h2] at hc
        rcases List.mem_cons.mp hc with hceq | hc2
        · subst hceq; exact ⟨h2.2.1, h2.2.2⟩
        · exact ih (jsSetAdd acc r.url) c hc2
      · rw [if_neg h2] at hc; exact ih acc c hc

/-- Every selected result's host is fresh with respect to the running set. -/
theorem selectDiverse_fresh (host : String → String) (cap : Nat) :
    ∀ (rs : List SearchResult) (acc : List String),
      ∀ c ∈ selectDiverse host cap rs acc, ∀ u ∈ acc, host u ≠ host c.url := by
  intro rs
  induction rs with
  | nil => intro acc c hc; simp [selectDiverse] at hc
  | cons r rest ih =>
    intro acc c hc
    rw [selectDiverse_cons] at hc
    by_cases h1 : cap ≤ acc.length
    · rw [if_pos h1] at hc; exact ih acc c hc
    · rw [if_neg h1] at hc
      by_cases h2 : acceptCond host acc r
      · rw [if_pos h2] at hc
        rcases List.mem_cons.mp hc with hceq | hc2
        · subst hceq; exact host_fresh_of_any_false host h2.1
        · intro u hu
          refine ih (jsSetAdd acc r.url) c hc2 u ?_
          rw [jsSetAdd_of_any_false host h2.1]
          exact List.mem_append_left _ hu
      · rw [if_neg h2] at hc; exact ih acc c hc

/-- No two selected results share a host. -/
theorem selectDiverse_pairwise_host (host : String → String) (cap : Nat) :
    ∀ (rs : List SearchResult) (acc : List String),
      (selectDiverse host cap rs acc).Pairwise fun a b => host a.url ≠ host b.url := by
  intro rs
  induction rs with
  | nil => intro acc; simp [selectDiverse]
  | cons r rest ih =>
    intro acc
    rw [selectDiverse_cons]
    by_cases h1 : cap ≤ acc.length
    · rw [if_pos h1]; exact ih acc
    · rw [if_neg h1]
      by_cases h2 : acceptCond host acc r
      · rw [if_pos h2]
        refine List.Pairwise.cons ?_ (ih (jsSetAdd acc r.url))
        intro b hb hab
        have hfresh := selectDiverse_fresh host cap rest (jsSetAdd acc r.url) b hb r.url
          (by rw [jsSetAdd_of_any_false host h2.1]; exact List.mem_append_right _ (by simp))
        exact hfresh (hab ▸ rfl)
      · rw [if_neg h2]; exact ih acc

/-- Claim C2: for every host map, cap and input list, the diversity selector
returns pairwise host-distinct results, all with score strictly above `0.5`,
and at most `cap` of them. -/
theorem diversity_selector_invariants (host : String → String) (cap : Nat)
    (rankedResults : List SearchResult) :
    (selectDiverse host cap rankedResults []).Pairwise
        (fun a b => host a.url ≠ host b.url)
    ∧ (∀ c ∈ selectDiverse host cap rankedResults [], (0.5 : ℚ) < c.score)
    ∧ (selectDiverse host cap rankedResults []).length ≤ cap := by
  refine ⟨selectDiverse_pairwise_host host cap rankedResults [], ?_, ?_⟩
  · intro c hc
    have := (selectDiverse_score host cap rankedResults [] c hc).2
    rwa [ratHalf_eq] at this
  · simpa using selectDiverse_length_le host cap rankedResults []

/-- A single high-quality candidate, witness input for
`diversity_selector_invariants`. -/
def loneCandidate : SearchResult :=
  ⟨"w1", "https://wa/1", "WA", "s", "", mkRat 9 10, false⟩

/-- Witness for `diversity_selector_invariants` on a one-candidate input. -/
theorem diversity_selector_invariants_witness :
    (selectDiverse hostname 3 [loneCandidate] []).Pairwise
        (fun a b => hostname a.url ≠ hostname b.url)
    ∧ (0.5 : ℚ) < loneCandidate.score
    ∧ (selectDiverse hostname 3 [loneCandidate] []).length ≤ 3 :=
  ⟨(diversity_selector_invariants hostname 3 [loneCandidate]).1,
   (diversity_selector_invariants hostname 3 [loneCandidate]).2.1 loneCandidate
     (by decide),
   (diversity_selector_invariants hostname 3 [loneCandidate]).2.2⟩

/-! ## Scenario B: the concrete five-candidate selection -/

/-- Decimal spellings of the scenario scores, in kernel-reducible form. -/
theorem rat09_eq : (0.9 : ℚ) = mkRat 9 10 := by rw [Rat.mkRat_eq_div]; norm_num

/-- `0.8` in kernel-reducible form. -/
theorem rat08_eq : (0.8 : ℚ) = mkRat 8 10 := by rw [Rat.mkRat_eq_div]; norm_num

/-- `0.6` in kernel-reducible form. -/
theorem rat06_eq : (0.6 : ℚ) = mkRat 6 10 := by rw [Rat.mkRat_eq_div]; norm_num

/-- `0.4` in kernel-reducible form. -/
theorem rat04_eq : (0.4 : ℚ) = mkRat 4 10 := by rw [Rat.mkRat_eq_div]; norm_num

/-- Scenario B candidate: score `0.9`, domain `a` (first occurrence). -/
def sbA1 : SearchResult :=
  { id := "r1", url := "https://a/1", name := "A1", snippet := "sA1",
    content := "", score := 0.9, isCustomUrl := false }

/-- Scenario B candidate: score `0.8`, domain `a`. -/
def sbA2 : SearchResult :=
  { id := "r2", url := "https://a/2", name := "A2", snippet := "sA2",
    content := "", score := 0.8, isCustomUrl := false }

/-- Scenario B candidate: score `0.6`, domain `b`. -/
def sbB : SearchResult :=
  { id := "r3", url := "https://b/1", name := "B", snippet := "sB",
    content := "", score := 0.6, isCustomUrl := false }

/-- Scenario B candidate: score `0.4`, domain `c`. -/
def sbC : SearchResult :=
  { id := "r4", url := "https://c/1", name := "C", snippet := "sC",
    content := "", score := 0.4, isCustomUrl := false }

/-- Scenario B candidate: score `0.9`, domain `d`. -/
def sbD : SearchResult :=
  { id := "r5", url := "https://d/1", name := "D", snippet := "sD",
    content := "", score := 0.9, isCustomUrl := false }

/-- The five scenario B candidates, in search-response order: scores
`[0.9, 0.8, 0.6, 0.4, 0.9]` over domains `[a, a, b, c, d]`. -/
def scenarioB : List SearchResult := [sbA1, sbA2, sbB, sbC, sbD]

/-- Claim C1: with cap `3`, after the pipeline's stable descending sort by
score, the diversity selector picks exactly the `0.9`-scored candidate from
domain `a`, the `0.9`-scored candidate from domain `d` and the `0.6`-scored
candidate from domain `b`, excluding the `0.8` (domain `a` already used) and
the `0.4` (cap reached) candidates. -/
theorem scenarioB_diversity_selection :
    selectDiverse hostname maxSelectableResults (sortByScoreDesc scenarioB) []
      = [sbA1, sbD, sbB] := by
  simp only [scenarioB, sbA1, sbA2, sbB, sbC, sbD, rat09_eq, rat08_eq, rat06_eq, rat04_eq]
  decide

/-! ## The backoff executor -/

/-- One unfolding step of the retry loop. -/
theorem retryAux_succ {α : Type} (op : Nat → Except Thrown α) (b fuel i : Nat)
    (last : Thrown) :
    retryAux op b (fuel + 1) i last =
      match op i with
      | Except.ok v => (Except.ok v, i + 1, [])
      | Except.error e =>
        if isRateLimit e then
          ((retryAux op b fuel (i + 1) e).1, (retryAux op b fuel (i + 1) e).2.1,
            b * 2 ^ i :: (retryAux op b fuel (i + 1) e).2.2)
        else (Except.error e, i + 1, []) := rfl

/-- Claim C3: an operation that fails twice with a rate-limit signal and
succeeds on its third invocation is, under `retryWithBackoff` with
`maxRetries = 3`, invoked exactly 3 times and its success value returned
(after backoff delays of `1000·2⁰` and `1000·2¹` ms). -/
theorem retry_rateLimited_twice_then_success {α : Type}
    (op : Nat → Except Thrown α) (v : α) (e0 e1 : Thrown)
    (h0 : op 0 = Except.error e0) (h0r : isRateLimit e0 = true)
    (h1 : op 1 = Except.error e1) (h1r : isRateLimit e1 = true)
    (h2 : op 2 = Except.ok v) :
    retryWithBackoff op 3 1000 = (Except.ok v, 3, [1000, 2000]) := by
  rw [retryWithBackoff, show (3 : Nat) = 2 + 1 from rfl, retryAux_succ, h0]
  simp only [h0r, if_true]
  rw [show (2 : Nat) = 1 + 1 from rfl, retryAux_succ, h1]
  simp only [h1r, if_true]
  rw [show (1 : Nat) = 0 + 1 from rfl, retryAux_succ, h2]
  rfl

/-- A concrete operation failing twice with `429` then succeeding. -/
def witnessOp3 : Nat → Except Thrown Nat := fun i =>
  if i < 2 then Except.error (Thrown.errObj "Rate limited: 429") else Except.ok 42

/-- Witness for `retry_rateLimited_twice_then_success` at `witnessOp3`. -/
theorem retry_rateLimited_twice_then_success_witness :
    retryWithBackoff witnessOp3 3 1000 = (Except.ok 42, 3, [1000, 2000]) :=
  retry_rateLimited_twice_then_success witnessOp3 42
    (Thrown.errObj "Rate limited: 429") (Thrown.errObj "Rate limited: 429")
    rfl (by decide) rfl (by decide) rfl

/-! ## The content resolver -/

/-- Resolver case: truthy pre-attached content short-circuits. -/
theorem resolveOne_content (fetch : String → Except Thrown String)
    (fs : FetchStatus) (article : SearchResult) (h : article.content ≠ "") :
    resolveOne fetch fs article =
      Except.ok (⟨article.url, article.name, article.content⟩,
        recordFetched fs article.url) := by
  rw [resolveOne, if_pos h]

/-- Resolver case: no pre-attached content, fetch succeeds with truthy
content. -/
theorem resolveOne_fetch_ok (fetch : String → Except Thrown String)
    (fs : FetchStatus) (article : SearchResult) (s : String)
    (hc : article.content = "") (hf : fetch article.url = Except.ok s)
    (hs : s ≠ "") :
    resolveOne fetch fs article =
      Except.ok (⟨article.url, article.name, s⟩, recordFetched fs article.url) := by
  rw [resolveOne, if_neg (by simp [hc]), hf]
  exact if_pos hs

/-- Resolver case: no pre-attached content, fetch fails with a non-rate-limit
error; the snippet is used as fallback. -/
theorem resolveOne_fetch_err_other (fetch : String → Except Thrown String)
    (fs : FetchStatus) (article : SearchResult) (e : Thrown)
    (hc : article.content = "") (hf : fetch article.url = Except.error e)
    (he : isRateLimit e = false) :
    resolveOne fetch fs article =
      Except.ok (⟨article.url, article.name, article.snippet⟩,
        recordFallback fs article.url) := by
  rw [resolveOne, if_neg (by simp [hc]), hf]
  simp [he]

/-- Resolver case: no pre-attached content, fetch fails with a rate-limit
error; the error is rethrown. -/
theorem resolveOne_fetch_err_rateLimit (fetch : String → Except Thrown String)
    (fs : FetchStatus) (article : SearchResult) (e : Thrown)
    (hc : article.content = "") (hf : fetch article.url = Except.error e)
    (he : isRateLimit e = true) :
    resolveOne fetch fs article = Except.error e := by
  rw [resolveOne, if_neg (by simp [hc]), hf]
  simp [he]

/-- Claim C6: a candidate whose content field is already populated is
resolved without consulting the fetcher (the result is the same for every
fetcher), its content is returned unchanged with its URL and title, its URL
is recorded as fetched, and the successful counter is incremented by one. -/
theorem resolver_precontent_no_fetch (fetch fetch2 : String → Except Thrown String)
    (fs : FetchStatus) (article : SearchResult) (h : article.content ≠ "") :
    resolveOne fetch fs article = resolveOne fetch2 fs article
    ∧ resolveOne fetch fs article =
        Except.ok (⟨article.url, article.name, article.content⟩,
          recordFetched fs article.url)
    ∧ (recordFetched fs article.url).successful = fs.successful + 1
    ∧ (recordFetched fs article.url).sourceStatuses.lookup article.url
        = some SourceStatus.fetched := by
  refine ⟨?_, resolveOne_content fetch fs article h, rfl, ?_⟩
  · rw [resolveOne_content fetch fs article h, resolveOne_content fetch2 fs article h]
  · simp [recordFetched, setSourceStatus, List.lookup]

/-- Witness input for `resolver_precontent_no_fetch`: an uploaded document
with pre-attached content. -/
def uploadedDoc : SearchResult :=
  { id := "file-7", url := "https://local/doc", name := "Doc", snippet := "sn",
    content := "full text", score := 0, isCustomUrl := true }

/-- Witness for `resolver_precontent_no_fetch` on `uploadedDoc`, with two
fetchers that disagree everywhere. -/
theorem resolver_precontent_no_fetch_witness :
    resolveOne (fun _ => Except.ok "w1")
        { total := 1, successful := 0, fallback := 0, sourceStatuses := [] } uploadedDoc
      = resolveOne (fun _ => Except.error (Thrown.errObj "429"))
        { total := 1, successful := 0, fallback := 0, sourceStatuses := [] } uploadedDoc
    ∧ resolveOne (fun _ => Except.ok "w1")
        { total := 1, successful := 0, fallback := 0, sourceStatuses := [] } uploadedDoc
      = Except.ok (⟨uploadedDoc.url, uploadedDoc.name, uploadedDoc.content⟩,
          recordFetched { total := 1, successful := 0, fallback := 0, sourceStatuses := [] }
            uploadedDoc.url)
    ∧ (recordFetched { total := 1, successful := 0, fallback := 0, sourceStatuses := [] }
          uploadedDoc.url).successful
      = ({ total := 1, successful := 0, fallback := 0, sourceStatuses := [] } : FetchStatus).successful + 1
    ∧ (recordFetched { total := 1, successful := 0, fallback := 0, sourceStatuses := [] }
          uploadedDoc.url).sourceStatuses.lookup uploadedDoc.url
      = some SourceStatus.fetched :=
  resolver_precontent_no_fetch (fun _ => Except.ok "w1")
    (fun _ => Except.error (Thrown.errObj "429"))
    { total := 1, successful := 0, fallback := 0, sourceStatuses := [] }
    uploadedDoc (by decide)

/-- Claim C4: in a three-source resolution batch where exactly one fetch
fails with a non-rate-limit error and the other two succeed with non-empty
content, the batch completes, the failed source contributes its snippet as
content (and, its snippet being non-blank, that entry survives into the
report payload), and the final fetch status is
`successful = 2, fallback = 1, total = 3`. -/
theorem batch_one_nonRateLimit_failure
    (c1 c2 c3 : SearchResult) (fetch : String → Except Thrown String)
    (s1 s3 : String) (e : Thrown)
    (h1c : c1.content = "") (h2c : c2.content = "") (h3c : c3.content = "")
    (hf1 : fetch c1.url = Except.ok s1) (hs1 : s1 ≠ "")
    (hf2 : fetch c2.url = Except.error e) (he : isRateLimit e = false)
    (hf3 : fetch c3.url = Except.ok s3) (hs3 : s3 ≠ "")
    (hsnip : jsTrim c2.snippet ≠ "") :
    ∃ fs : FetchStatus,
      resolveBatch fetch
          { total := 3, successful := 0, fallback := 0, sourceStatuses := [] }
          [c1, c2, c3]
        = Except.ok ([⟨c1.url, c1.name, s1⟩, ⟨c2.url, c2.name, c2.snippet⟩,
            ⟨c3.url, c3.name, s3⟩], fs)
      ∧ fs.total = 3 ∧ fs.successful = 2 ∧ fs.fallback = 1
      ∧ (⟨c2.url, c2.name, c2.snippet⟩ : ContentResult) ∈
          reportPayload [⟨c1.url, c1.name, s1⟩, ⟨c2.url, c2.name, c2.snippet⟩,
            ⟨c3.url, c3.name, s3⟩] := by
  refine ⟨recordFetched (recordFallback (recordFetched
    { total := 3, successful := 0, fallback := 0, sourceStatuses := [] } c1.url)
      c2.url) c3.url, ?_, rfl, rfl, rfl, ?_⟩
  · simp only [resolveBatch, resolveOne_fetch_ok fetch _ c1 s1 h1c hf1 hs1,
      resolveOne_fetch_err_other fetch _ c2 e h2c hf2 he,
      resolveOne_fetch_ok fetch _ c3 s3 h3c hf3 hs3]
  · simp only [reportPayload, List.mem_filter]
    refine ⟨by simp, by simpa using hsnip⟩

/-- Witness for `batch_one_nonRateLimit_failure`: three candidates over
distinct URLs, the middle fetch failing with a DNS-style error. -/
theorem batch_one_nonRateLimit_failure_witness :
    ∃ fs : FetchStatus,
      resolveBatch
          (fun u => if u = "https://y/1" then Except.error (Thrown.errObj "ENOTFOUND")
            else Except.ok ("body of " ++ u))
          { total := 3, successful := 0, fallback := 0, sourceStatuses := [] }
          [⟨"i1", "https://x/1", "X", "snX", "", 0, false⟩,
           ⟨"i2", "https://y/1", "Y", "snY", "", 0, false⟩,
           ⟨"i3", "https://z/1", "Z", "snZ", "", 0, false⟩]
        = Except.ok ([⟨"https://x/1", "X", "body of https://x/1"⟩,
            ⟨"https://y/1", "Y", "snY"⟩, ⟨"https://z/1", "Z", "body of https://z/1"⟩], fs)
      ∧ fs.total = 3 ∧ fs.successful = 2 ∧ fs.fallback = 1
      ∧ (⟨"https://y/1", "Y", "snY"⟩ : ContentResult) ∈
          reportPayload [⟨"https://x/1", "X", "body of https://x/1"⟩,
            ⟨"https://y/1", "Y", "snY"⟩, ⟨"https://z/1", "Z", "body of https://z/1"⟩] :=
  batch_one_nonRateLimit_failure
    ⟨"i1", "https://x/1", "X", "snX", "", 0, false⟩
    ⟨"i2", "https://y/1", "Y", "snY", "", 0, false⟩
    ⟨"i3", "https://z/1", "Z", "snZ", "", 0, false⟩
    (fun u => if u = "https://y/1" then Except.error (Thrown.errObj "ENOTFOUND")
      else Except.ok ("body of " ++ u))
    "body of https://x/1" "body of https://z/1" (Thrown.errObj "ENOTFOUND")
    rfl rfl rfl (by decide) (by decide) (by decide) (by decide) (by decide) (by decide)
    (by decide)

/-! ## Rate-limit classification -/

/-- The invocation counter never decreases below the starting index. -/
theorem retryAux_count_ge_start {α : Type} (op : Nat → Except Thrown α)
    (b : Nat) : ∀ (fuel i : Nat) (last : Thrown),
    i ≤ (retryAux op b fuel i last).2.1 := by
  intro fuel
  induction fuel with
  | zero => intro i last; exact Nat.le_refl i
  | succ f ih =>
    intro i last
    rw [retryAux_succ]
    cases hop : op i with
    | ok v => simp
    | error e =>
      by_cases hrl : isRateLimit e
      · simp only [hrl, if_true]
        exact Nat.le_trans (Nat.le_succ i) (ih (i + 1) e)
      · simp [hrl]

/-- With at least one attempt left, the operation is invoked at least once
more. -/
theorem retryAux_count_succ {α : Type} (op : Nat → Except Thrown α)
    (b : Nat) (f i : Nat) (last : Thrown) :
    i + 1 ≤ (retryAux op b (f + 1) i last).2.1 := by
  rw [retryAux_succ]
  cases hop : op i with
  | ok v => simp
  | error e =>
    by_cases hrl : isRateLimit e
    · simp only [hrl, if_true]
      exact retryAux_count_ge_start op b f (i + 1) e
    · simp [hrl]

/-- Step equation of the resolution batch on a cons cell. -/
theorem resolveBatch_cons (fetch : String → Except Thrown String)
    (fs : FetchStatus) (article : SearchResult) (rest : List SearchResult) :
    resolveBatch fetch fs (article :: rest) =
      match resolveOne fetch fs article with
      | Except.error e => Except.error e
      | Except.ok (r, fs1) =>
        match resolveBatch fetch fs1 rest with
        | Except.error e => Except.error e
        | Except.ok (rs, fs2) => Except.ok (r :: rs, fs2) := rfl

/-- A rate-limited resolution rejects the whole batch, wherever it sits,
as long as the sources before it resolved. -/
theorem resolveBatch_rateLimit_aborts (fetch : String → Except Thrown String)
    (e : Thrown) (article : SearchResult)
    (hc : article.content = "") (hf : fetch article.url = Except.error e)
    (hrl : isRateLimit e = true) :
    ∀ (pre : List SearchResult) (fs : FetchStatus) (rs : List ContentResult)
      (fs1 : FetchStatus), resolveBatch fetch fs pre = Except.ok (rs, fs1) →
      ∀ (rest : List SearchResult),
        resolveBatch fetch fs (pre ++ article :: rest) = Except.error e := by
  intro pre
  induction pre with
  | nil =>
    intro fs rs fs1 _hpre rest
    rw [List.nil_append, resolveBatch_cons,
      resolveOne_fetch_err_rateLimit fetch fs article e hc hf hrl]
  | cons p ps ih =>
    intro fs rs fs1 hpre rest
    rw [resolveBatch_cons] at hpre
    rw [List.cons_append, resolveBatch_cons]
    cases hres : resolveOne fetch fs p with
    | error e2 => rw [hres] at hpre; exact absurd hpre (by simp)
    | ok pair =>
      obtain ⟨r, fsA⟩ := pair
      rw [hres] at hpre
      dsimp only at hpre ⊢
      cases hrest : resolveBatch fetch fsA ps with
      | error e2 => rw [hrest] at hpre; exact absurd hpre (by simp)
      | ok pair2 =>
        obtain ⟨rs2, fs2⟩ := pair2
        rw [ih fsA rs2 fs2 hrest rest]

/-- Claim C10: a thrown value is treated as the rate-limit signal — retried
(with a first backoff delay of `1000·2⁰`) by `retryWithBackoff`, and
rethrown by the content resolver so that it rejects the whole batch — if
and only if it is an `Error` object whose message contains `"429"`; every
other thrown value is propagated by `retryWithBackoff` after a single
invocation, and is absorbed by the content resolver as a snippet
fallback. -/
theorem rateLimit_classification (e : Thrown) :
    (isRateLimit e = true ↔ ∃ m, e = Thrown.errObj m ∧ strIncludes m "429" = true)
    ∧ (∀ (α : Type) (op : Nat → Except Thrown α) (n : Nat),
        op 0 = Except.error e → isRateLimit e = false → 1 ≤ n →
        retryWithBackoff op n 1000 = (Except.error e, 1, []))
    ∧ (∀ (α : Type) (op : Nat → Except Thrown α) (n : Nat),
        op 0 = Except.error e → isRateLimit e = true → 2 ≤ n →
        2 ≤ (retryWithBackoff op n 1000).2.1
        ∧ (retryWithBackoff op n 1000).2.2.head? = some 1000)
    ∧ (∀ (fetch : String → Except Thrown String) (fs : FetchStatus)
        (article : SearchResult), article.content = "" →
        fetch article.url = Except.error e →
        (isRateLimit e = true → resolveOne fetch fs article = Except.error e)
        ∧ (isRateLimit e = false → resolveOne fetch fs article =
            Except.ok (⟨article.url, article.name, article.snippet⟩,
              recordFallback fs article.url)))
    ∧ (∀ (fetch : String → Except Thrown String) (article : SearchResult),
        article.content = "" → fetch article.url = Except.error e →
        isRateLimit e = true →
        ∀ (pre : List SearchResult) (fs : FetchStatus) (rs : List ContentResult)
          (fs1 : FetchStatus), resolveBatch fetch fs pre = Except.ok (rs, fs1) →
          ∀ (rest : List SearchResult),
            resolveBatch fetch fs (pre ++ article :: rest) = Except.error e) := by
  refine ⟨?_, ?_, ?_, ?_, ?_⟩
  · cases e with
    | errObj m => simp [isRateLimit]
    | respObj s => simp [isRateLimit]
    | objWithError s => simp [isRateLimit]
    | strVal s => simp [isRateLimit]
    | otherVal => simp [isRateLimit]
  · intro α op n h0 hrl hn
    cases n with
    | zero => omega
    | succ k =>
      rw [retryWithBackoff, retryAux_succ, h0]
      simp [hrl]
  · intro α op n h0 hrl hn
    cases n with
    | zero => omega
    | succ m =>
      cases m with
      | zero => omega
      | succ k =>
        rw [retryWithBackoff, retryAux_succ, h0]
        simp only [hrl, if_true]
        constructor
        · exact retryAux_count_succ op 1000 k 1 e
        · simp
  · intro fetch fs article hc hf
    exact ⟨fun hrl => resolveOne_fetch_err_rateLimit fetch fs article e hc hf hrl,
      fun hrl => resolveOne_fetch_err_other fetch fs article e hc hf hrl⟩
  · intro fetch article hc hf hrl pre fs rs fs1 hpre rest
    exact resolveBatch_rateLimit_aborts fetch e article hc hf hrl pre fs rs fs1 hpre rest

/-- Witness for `rateLimit_classification`: the string-typed thrown value
`"429"` is not the rate-limit signal (it is not an `Error` object) and is
propagated after one invocation, while an `Error` with message
`"Rate limit exceeded 429"` is retried. -/
theorem rateLimit_classification_witness :
    retryWithBackoff (fun _ => (Except.error (Thrown.strVal "429") : Except Thrown Nat))
        3 1000 = (Except.error (Thrown.strVal "429"), 1, [])
    ∧ 2 ≤ (retryWithBackoff
        (fun _ => (Except.error (Thrown.errObj "Rate limit exceeded 429") : Except Thrown Nat))
        3 1000).2.1
    ∧ resolveOne (fun _ => Except.error (Thrown.strVal "429"))
        { total := 1, successful := 0, fallback := 0, sourceStatuses := [] }
        ⟨"i9", "https://w/1", "W", "snW", "", 0, false⟩
      = Except.ok (⟨"https://w/1", "W", "snW"⟩,
          recordFallback { total := 1, successful := 0, fallback := 0, sourceStatuses := [] }
            "https://w/1")
    ∧ resolveBatch (fun _ => Except.error (Thrown.errObj "got 429"))
        { total := 1, successful := 0, fallback := 0, sourceStatuses := [] }
        ([] ++ ⟨"i9", "https://w/1", "W", "snW", "", 0, false⟩ :: [])
      = Except.error (Thrown.errObj "got 429") :=
  ⟨(rateLimit_classification (Thrown.strVal "429")).2.1 Nat
      (fun _ => Except.error (Thrown.strVal "429")) 3 rfl (by decide) (by decide),
   ((rateLimit_classification (Thrown.errObj "Rate limit exceeded 429")).2.2.1 Nat
      (fun _ => Except.error (Thrown.errObj "Rate limit exceeded 429")) 3 rfl
      (by decide) (by decide)).1,
   ((rateLimit_classification (Thrown.strVal "429")).2.2.2.1
      (fun _ => Except.error (Thrown.strVal "429"))
      { total := 1, successful := 0, fallback := 0, sourceStatuses := [] }
      ⟨"i9", "https://w/1", "W", "snW", "", 0, false⟩ rfl rfl).2 (by decide),
   (rateLimit_classification (Thrown.errObj "got 429")).2.2.2.2
      (fun _ => Except.error (Thrown.errObj "got 429"))
      ⟨"i9", "https://w/1", "W", "snW", "", 0, false⟩ rfl rfl (by decide)
      [] { total := 1, successful := 0, fallback := 0, sourceStatuses := [] } [] _ rfl []⟩

/-! ## The selection toggle -/

/-- Filtering never lengthens a list. -/
theorem filter_length_le {α : Type} (p : α → Bool) :
    ∀ l : List α, (l.filter p).length ≤ l.length := by
  intro l
  induction l with
  | nil => simp
  | cons a l ih =>
    rw [List.filter_cons]
    by_cases h : p a = true
    · rw [if_pos h, List.length_cons, List.length_cons]; omega
    · rw [if_neg h, List.length_cons]; omega

/-- Filtering away a present element strictly shortens the list. -/
theorem filter_length_lt {α : Type} (p : α → Bool) :
    ∀ (l : List α) (a : α), a ∈ l → p a = false →
      (l.filter p).length < l.length := by
  intro l
  induction l with
  | nil => intro a ha; simp at ha
  | cons b l ih =>
    intro a ha hpa
    rw [List.filter_cons]
    rcases List.mem_cons.mp ha with rfl | ha2
    · rw [hpa, if_neg (by simp)]
      exact Nat.lt_succ_of_le (filter_length_le p l)
    · by_cases hb : p b
      · rw [if_pos hb, List.length_cons, List.length_cons]
        exact Nat.succ_lt_succ (ih a ha2 hpa)
      · rw [if_neg hb, List.length_cons]
        exact Nat.lt_succ_of_lt (ih a ha2 hpa)

/-- Filtering out an id that does not occur is the identity. -/
theorem filter_ne_of_not_mem {l : List String} {rid : String} (h : rid ∉ l) :
    l.filter (fun i => i ≠ rid) = l := by
  induction l with
  | nil => rfl
  | cons a l ih =>
    have hne : a ≠ rid := fun hao => h (hao ▸ List.mem_cons_self a l)
    rw [List.filter_cons, if_pos (by simpa using hne),
      ih (fun hm => h (List.mem_cons_of_mem a hm))]

/-- The removed id is gone from the filtered selection. -/
theorem not_mem_filter_ne (l : List String) (rid : String) :
    rid ∉ l.filter fun i => i ≠ rid := by
  intro hm
  have := (List.mem_filter.mp hm).2
  simp at this

/-- One toggle keeps the selection within the cap. -/
theorem handleResultSelect_length (resultId : String) (prev : State)
    (h : prev.selectedResults.length ≤ MAX_SELECTIONS) :
    (handleResultSelect resultId prev).selectedResults.length ≤ MAX_SELECTIONS := by
  rw [handleResultSelect]
  by_cases h1 : resultId ∈ prev.selectedResults
  · rw [if_pos h1]
    exact Nat.le_trans (filter_length_le _ prev.selectedResults) h
  · rw [if_neg h1]
    by_cases h2 : MAX_SELECTIONS ≤ prev.selectedResults.length
    · rw [if_pos h2]; exact h
    · rw [if_neg h2]
      simp only [List.length_append, List.length_singleton]
      omega

/-- Claim C8: starting from any state within the cap, the selection length
stays at most `maxSelectableResults` after every toggle sequence; and a
toggle that would add a candidate while the selection is full returns the
state unchanged. -/
theorem selection_cap_invariant (st : State)
    (h : st.selectedResults.length ≤ maxSelectableResults) (ids : List String) :
    (ids.foldl (fun s i => handleResultSelect i s) st).selectedResults.length
        ≤ maxSelectableResults
    ∧ ∀ id2 : String, id2 ∉ st.selectedResults →
        st.selectedResults.length = maxSelectableResults →
        handleResultSelect id2 st = st := by
  constructor
  · induction ids generalizing st with
    | nil => exact h
    | cons i ids ih =>
      rw [List.foldl_cons]
      exact ih (handleResultSelect i st) (handleResultSelect_length i st h)
  · intro id2 hnot hfull
    rw [handleResultSelect, if_neg hnot,
      if_pos (show MAX_SELECTIONS ≤ st.selectedResults.length from
        Nat.le_of_eq hfull.symm)]

/-- A full selection for the witness of `selection_cap_invariant`. -/
def fullState : State := { initialState with selectedResults := ["a", "b", "c"] }

/-- Witness for `selection_cap_invariant`: a full selection stays within the
cap under a toggle burst, and adding `"d"` to it is a no-op. -/
theorem selection_cap_invariant_witness :
    (["d", "a", "e", "a"].foldl (fun s i => handleResultSelect i s)
        fullState).selectedResults.length ≤ maxSelectableResults
    ∧ handleResultSelect "d" fullState = fullState :=
  ⟨(selection_cap_invariant fullState (by decide) ["d", "a", "e", "a"]).1,
   (selection_cap_invariant fullState (by decide) ["d", "a", "e", "a"]).2 "d"
     (by decide) (by decide)⟩

/-- Claim C9 counterexample state: one candidate, nothing selected. -/
def toggleDemoState : State :=
  { initialState with
    results := [⟨"r1", "https://a/1", "A1", "sn", "", 0, false⟩] }

/-- Claim C9, as stated, is false: toggling `"r1"` once selects it, toggling
twice deselects it again, so the selection set after two toggles differs
from the selection set after one. -/
theorem toggle_twice_differs_from_once :
    ((handleResultSelect "r1" (handleResultSelect "r1"
        toggleDemoState)).selectedResults).toFinset
      ≠ ((handleResultSelect "r1" toggleDemoState).selectedResults).toFinset := by
  decide

/-- Claim C9 (amended): the toggle is an involution on the selection set —
for every state within the cap, toggling an id twice restores the original
selection membership (toggling once flips it, so it is not idempotent). -/
theorem toggle_involution (st : State) (resultId : String)
    (h : st.selectedResults.length ≤ MAX_SELECTIONS) :
    ∀ x : String,
      x ∈ (handleResultSelect resultId
            (handleResultSelect resultId st)).selectedResults
        ↔ x ∈ st.selectedResults := by
  intro x
  by_cases h1 : resultId ∈ st.selectedResults
  · have hsel1 : (handleResultSelect resultId st).selectedResults
        = st.selectedResults.filter fun i => i ≠ resultId := by
      rw [handleResultSelect, if_pos h1]
    have hnot : resultId ∉ (handleResultSelect resultId st).selectedResults := by
      rw [hsel1]; exact not_mem_filter_ne _ _
    have hlt : (handleResultSelect resultId st).selectedResults.length
        < MAX_SELECTIONS := by
      rw [hsel1]
      exact Nat.lt_of_lt_of_le
        (filter_length_lt _ st.selectedResults resultId h1 (by simp)) h
    rw [handleResultSelect, if_neg hnot, if_neg (Nat.not_le_of_lt hlt)]
    simp only [hsel1, List.mem_append, List.mem_filter, List.mem_singleton,
      decide_eq_true_eq]
    constructor
    · rintro (⟨hx, _⟩ | rfl)
      · exact hx
      · exact h1
    · intro hx
      by_cases hxe : x = resultId
      · exact Or.inr hxe
      · exact Or.inl ⟨hx, by simpa using hxe⟩
  · by_cases h2 : MAX_SELECTIONS ≤ st.selectedResults.length
    · have hfix : handleResultSelect resultId st = st := by
        rw [handleResultSelect, if_neg h1, if_pos h2]
      rw [hfix, hfix]
    · have hsel1 : (handleResultSelect resultId st).selectedResults
          = st.selectedResults ++ [resultId] := by
        rw [handleResultSelect, if_neg h1, if_neg h2]
      have hmem : resultId ∈ (handleResultSelect resultId st).selectedResults := by
        rw [hsel1]; exact List.mem_append_right _ (by simp)
      rw [handleResultSelect, if_pos hmem]
      simp only [hsel1, List.filter_append]
      rw [filter_ne_of_not_mem h1]
      simp

/-- Witness state for `toggle_involution`: `"r1"` currently selected. -/
def toggleWitnessState : State := { initialState with selectedResults := ["r1"] }

/-- Witness for `toggle_involution`: toggling `"r1"` twice (deselect then
reselect) restores its membership. -/
theorem toggle_involution_witness :
    "r1" ∈ (handleResultSelect "r1"
        (handleResultSelect "r1" toggleWitnessState)).selectedResults
      ↔ "r1" ∈ toggleWitnessState.selectedResults :=
  toggle_involution toggleWitnessState "r1" (by decide) "r1"

/-! ## The manual-search merge -/

/-- The stale candidate: produced by an earlier search, not selected, not a
custom URL. -/
def staleResult : SearchResult := ⟨"old-1", "https://a/1", "A", "sn", "", 0, false⟩

/-- A state holding `staleResult` as its only candidate. -/
def repeatState : State := { initialState with results := [staleResult] }

/-- Claim C7 fails on the code: re-running the search with a response
carrying exactly the same URL removes that URL from the candidate set.  The
old entry is dropped (neither custom nor selected) while the fresh entry is
discarded by the duplicate check, which tests against the unfiltered
previous list. -/
theorem identical_search_drops_unselected_url :
    (handleSearchMerge repeatState
        (mapNewResults 5 [⟨"p1", "https://a/1", "A", "sn", "", 0, false⟩])).results.map
        (fun r => r.url) = []
    ∧ repeatState.results.map (fun r => r.url) = ["https://a/1"] := by
  decide

/-! ## The empty-search run of the agent pipeline -/

/-- A constant successful operation settles on the first invocation. -/
theorem retryConstOk {α : Type} (x : α) (b : Nat) :
    retryWithBackoff (fun _ => Except.ok x) 3 b = (Except.ok x, 1, []) := rfl

/-- Claim C5 (amended): an agent run whose search stage returns zero results
surfaces the failure through the `error` field (set to the empty-result
message) and leaves the report `null`; the stage tag stays at `searching`,
since the code never assigns an error stage. -/
theorem empty_search_surfaces_error (o : Oracles) (st0 : State)
    (opt : OptimizeResp) (hp : jsTrim st0.reportPrompt ≠ "")
    (ho : o.optimize = Except.ok opt) (hs : o.search = Except.ok []) :
    (handleAgentSearch o st0).error
        = some "No search results found. Please try a different query."
    ∧ (handleAgentSearch o st0).report = none
    ∧ (handleAgentSearch o st0).status.agentStep = AgentStep.searching := by
  rw [handleAgentSearch, if_neg hp]
  simp only [ho, hs, retryConstOk]
  simp [applyHandleError, handleErrorMessage]

/-- Oracles for the empty-search run: the optimizer succeeds, the search
returns zero results, nothing later is reached. -/
def emptySearchOracles : Oracles :=
  { optimize := Except.ok ⟨"test", "p", "because", none⟩
    search := Except.ok []
    analyze := Except.error (Thrown.errObj "unreached")
    fetchC := fun _ => Except.error (Thrown.errObj "unreached")
    reportGen := fun _ => Except.error (Thrown.errObj "unreached")
    timestamp := 0 }

/-- The starting state of the empty-search run: a user prompt is present. -/
def emptySearchStart : State := { initialState with reportPrompt := "test" }

/-- Claim C5, as stated, fails on the code: after the empty-result abort the
status's stage tag is not the `error` stage (it is left at `searching`);
there is no transition into an error state. -/
theorem empty_search_no_error_stage :
    (handleAgentSearch emptySearchOracles emptySearchStart).status.agentStep
      ≠ AgentStep.error := by
  decide

/-- Witness for `empty_search_surfaces_error` on the concrete empty-search
run. -/
theorem empty_search_surfaces_error_witness :
    (handleAgentSearch emptySearchOracles emptySearchStart).error
        = some "No search results found. Please try a different query."
    ∧ (handleAgentSearch emptySearchOracles emptySearchStart).report = none
    ∧ (handleAgentSearch emptySearchOracles emptySearchStart).status.agentStep
        = AgentStep.searching :=
  empty_search_surfaces_error emptySearchOracles emptySearchStart
    ⟨"test", "p", "because", none⟩ (by decide) rfl rfl

end DR
